import Mathlib

/-!
Verification of the session/decision core of the `mrinal505/kyc` repository.

The repository holds four near-duplicate Express servers driving an LLM-based
KYC interview.  This file shallowly embeds the parts of each variant that the
frozen claims are about:

* `MiniJson` — a model of the JavaScript `JSON.parse` / `JSON.stringify`
  builtins used by every variant (objects, arrays, strings with the common
  escapes, integer numbers, `true`/`false`/`null`).  Upstream network calls
  are modelled by passing their classified outcome as an explicit argument.
* `ServerJs` — `src/server.js` (cleanAndParseJSON, getGeminiResponse, the
  `/api/start` and `/api/process` routes and the MongoDB session document
  update they perform).
* `PartOne` — `src/unnamed/part_001` (the PRO variant: its getGeminiResponse
  fallback and the bootstrap history seeded by `/api/start`).
* `PartZero` — `src/unnamed/part_000` (the Auto-Healing variant: the model
  negotiator, `GeminiService.generateResponse` with its 404 re-negotiation,
  and the `/api/process` route with its catch-clause fallback).
* `ReadmeVar` — the server variant embedded in `src/README.md` after the
  markdown section (discoverModel with its process-wide cache and
  `process.exit(1)` failure path, callGemini, `/api/start`).
-/

namespace MiniJson

/-- JSON values as produced by `JSON.parse`: null, booleans, numbers
(restricted to the integers, the only numbers this repository's JSON
payloads use), strings, arrays and objects with insertion-ordered fields. -/
inductive JVal where
  | null : JVal
  | bool (b : Bool) : JVal
  | num (n : Int) : JVal
  | str (s : String) : JVal
  | arr (elems : List JVal) : JVal
  | obj (fields : List (String × JVal)) : JVal

/-- The opening-brace character (written via its code point so that brace
characters never appear literally in this file's literals). -/
def braceOpen : Char := Char.ofNat 123

/-- The closing-brace character. -/
def braceClose : Char := Char.ofNat 125

/-- JSON insignificant whitespace. -/
def isWsChar (c : Char) : Bool :=
  c == ' ' || c == '\t' || c == '\n' || c == '\r'

/-- Drop leading JSON whitespace. -/
def skipWs : List Char → List Char
  | [] => []
  | c :: rest => if isWsChar c then skipWs rest else c :: rest

/-- Decode one character escape inside a JSON string literal (the `\u` form
is outside the model; no payload in this repository uses it). -/
def escCharIn (e : Char) : Option Char :=
  if e = '"' then some '"'
  else if e = '\\' then some '\\'
  else if e = '/' then some '/'
  else if e = 'n' then some '\n'
  else if e = 't' then some '\t'
  else if e = 'r' then some '\r'
  else if e = 'b' then some (Char.ofNat 8)
  else if e = 'f' then some (Char.ofNat 12)
  else none

/-- Consume the body of a JSON string after its opening quote; returns the
decoded characters and the input remaining after the closing quote. -/
def parseStrChars : List Char → Option (List Char × List Char)
  | [] => none
  | '"' :: rest => some ([], rest)
  | '\\' :: e :: rest =>
    match escCharIn e with
    | some c => (parseStrChars rest).map (fun p => (c :: p.1, p.2))
    | none => none
  | c :: rest => (parseStrChars rest).map (fun p => (c :: p.1, p.2))

/-- Digits to the natural number they denote. -/
def digitsToNat (ds : List Char) : Nat :=
  ds.foldl (fun acc c => acc * 10 + (c.toNat - 48)) 0

/-- Parse a nonempty digit run; fractional or exponent continuations are
outside the integer-number model and rejected. -/
def parseNatNum (cs : List Char) : Option (Nat × List Char) :=
  let ds := cs.takeWhile Char.isDigit
  let rest := cs.dropWhile Char.isDigit
  if ds.isEmpty then none
  else
    match rest with
    | c :: _ => if c == '.' || c == 'e' || c == 'E' then none
                else some (digitsToNat ds, rest)
    | [] => some (digitsToNat ds, [])

/-- Parse a JSON number token (optional minus then digits). -/
def parseNumTok (cs : List Char) : Option (JVal × List Char) :=
  match cs with
  | '-' :: rest => (parseNatNum rest).map (fun p => (JVal.num (-(p.1 : Int)), p.2))
  | _ => (parseNatNum cs).map (fun p => (JVal.num (p.1 : Int), p.2))

mutual

/-- Parse one JSON value; `fuel` bounds the recursion depth. -/
def parseValF : Nat → List Char → Option (JVal × List Char)
  | 0, _ => none
  | Nat.succ fuel, cs =>
    match skipWs cs with
    | [] => none
    | 'n' :: 'u' :: 'l' :: 'l' :: rest => some (JVal.null, rest)
    | 't' :: 'r' :: 'u' :: 'e' :: rest => some (JVal.bool true, rest)
    | 'f' :: 'a' :: 'l' :: 's' :: 'e' :: rest => some (JVal.bool false, rest)
    | '"' :: rest => (parseStrChars rest).map (fun p => (JVal.str (String.mk p.1), p.2))
    | '[' :: rest => (parseElemsF fuel rest).map (fun p => (JVal.arr p.1, p.2))
    | c :: rest =>
      if c = braceOpen then (parseFieldsF fuel rest).map (fun p => (JVal.obj p.1, p.2))
      else if c == '-' || c.isDigit then parseNumTok (c :: rest)
      else none

/-- Parse the members of an object right after its opening brace. -/
def parseFieldsF : Nat → List Char → Option (List (String × JVal) × List Char)
  | 0, _ => none
  | Nat.succ fuel, cs =>
    match skipWs cs with
    | [] => none
    | c :: rest =>
      if c = braceClose then some ([], rest)
      else parseMemberF fuel (c :: rest)

/-- Parse one `"key": value` member and the members after it. -/
def parseMemberF : Nat → List Char → Option (List (String × JVal) × List Char)
  | 0, _ => none
  | Nat.succ fuel, cs =>
    match skipWs cs with
    | '"' :: rest =>
      match parseStrChars rest with
      | none => none
      | some (keyChars, afterKey) =>
        match skipWs afterKey with
        | ':' :: afterColon =>
          match parseValF fuel afterColon with
          | none => none
          | some (v, afterVal) =>
            match skipWs afterVal with
            | ',' :: afterComma =>
              (parseMemberF fuel afterComma).map
                (fun p => ((String.mk keyChars, v) :: p.1, p.2))
            | c :: rest2 =>
              if c = braceClose then some ([(String.mk keyChars, v)], rest2) else none
            | [] => none
        | _ => none
    | _ => none

/-- Parse the elements of an array right after its opening bracket. -/
def parseElemsF : Nat → List Char → Option (List JVal × List Char)
  | 0, _ => none
  | Nat.succ fuel, cs =>
    match skipWs cs with
    | [] => none
    | ']' :: rest => some ([], rest)
    | c :: rest => parseItemF fuel (c :: rest)

/-- Parse one array element and the elements after it. -/
def parseItemF : Nat → List Char → Option (List JVal × List Char)
  | 0, _ => none
  | Nat.succ fuel, cs =>
    match parseValF fuel cs with
    | none => none
    | some (v, afterVal) =>
      match skipWs afterVal with
      | ',' :: afterComma => (parseItemF fuel afterComma).map (fun p => (v :: p.1, p.2))
      | ']' :: rest => some ([v], rest)
      | _ => none

end

/-- Model of `JSON.parse`: parse one value and require only trailing
whitespace after it.  Returns `none` where `JSON.parse` throws. -/
def parse (s : String) : Option JVal :=
  match parseValF (s.length * 2 + 16) s.data with
  | some (v, rest) => if (skipWs rest).isEmpty then some v else none
  | none => none

/-- Field lookup on decoded objects; a later duplicate key shadows an
earlier one, as in `JSON.parse`. -/
def jlookup (fields : List (String × JVal)) (k : String) : Option JVal :=
  fields.reverse.lookup k

/-- Property access `v[k]` on a decoded value: `none` models `undefined`. -/
def getField (v : JVal) (k : String) : Option JVal :=
  match v with
  | JVal.obj fields => jlookup fields k
  | _ => none

/-- Whether a decoded value is an object carrying field `k`. -/
def hasField (v : JVal) (k : String) : Bool :=
  (getField v k).isSome

/-- String-typed field access (`undefined` and non-strings map to `none`). -/
def getStr (v : JVal) (k : String) : Option String :=
  match getField v k with
  | some (JVal.str s) => some s
  | _ => none

/-- Boolean-typed field access. -/
def getBool (v : JVal) (k : String) : Option Bool :=
  match getField v k with
  | some (JVal.bool b) => some b
  | _ => none

/-- Escape one character for `JSON.stringify` output. -/
def escCharOut (c : Char) : String :=
  if c = '"' then "\\\""
  else if c = '\\' then "\\\\"
  else if c = '\n' then "\\n"
  else if c = '\t' then "\\t"
  else if c = '\r' then "\\r"
  else if c = Char.ofNat 8 then "\\b"
  else if c = Char.ofNat 12 then "\\f"
  else String.singleton c

/-- Escape a whole string for `JSON.stringify` output. -/
def escapeString (s : String) : String :=
  s.data.foldl (fun acc c => acc ++ escCharOut c) ""

/-- Comma-join rendered items. -/
def joinComma : List String → String
  | [] => ""
  | [x] => x
  | x :: y :: rest => x ++ "," ++ joinComma (y :: rest)

mutual

/-- Model of `JSON.stringify` on decoded values. -/
def stringify : JVal → String
  | JVal.null => "null"
  | JVal.bool true => "true"
  | JVal.bool false => "false"
  | JVal.num n => toString n
  | JVal.str s => "\"" ++ escapeString s ++ "\""
  | JVal.arr elems => "[" ++ stringifyElems elems ++ "]"
  | JVal.obj fields => "\x7b" ++ stringifyFields fields ++ "\x7d"

/-- Render array elements, comma separated. -/
def stringifyElems : List JVal → String
  | [] => ""
  | [v] => stringify v
  | v :: w :: rest => stringify v ++ "," ++ stringifyElems (w :: rest)

/-- Render object members, comma separated. -/
def stringifyFields : List (String × JVal) → String
  | [] => ""
  | [(k, v)] => "\"" ++ escapeString k ++ "\":" ++ stringify v
  | (k, v) :: f :: rest =>
    "\"" ++ escapeString k ++ "\":" ++ stringify v ++ "," ++ stringifyFields (f :: rest)

end

end MiniJson

namespace JsStr

/-- Replace every non-overlapping occurrence of `pat` left to right, as the
JS global-regex `replace` does; the fuel equals the input length, and every
step consumes at least one character. -/
def replaceAllF (pat rep : List Char) : Nat → List Char → List Char
  | 0, cs => cs
  | Nat.succ _, [] => []
  | Nat.succ fuel, c :: rest =>
    if pat.isPrefixOf (c :: rest) then
      match pat with
      | [] => c :: replaceAllF pat rep fuel rest
      | _ :: ptail => rep ++ replaceAllF pat rep fuel (rest.drop ptail.length)
    else c :: replaceAllF pat rep fuel rest

/-- JS `String.prototype.replace` with a global literal pattern. -/
def replaceAll (s pat rep : String) : String :=
  String.mk (replaceAllF pat.data rep.data s.data.length s.data)

/-- JS `String.prototype.trim` (over the whitespace this repository's
payloads can contain). -/
def trim (s : String) : String :=
  String.mk (((s.data.dropWhile (fun c => MiniJson.isWsChar c)).reverse.dropWhile
    (fun c => MiniJson.isWsChar c)).reverse)

/-- JS `name.split(sep).pop()` for a single-character separator: the text
after the last separator (the whole string when the separator is absent). -/
def lastSegmentAux (acc : List Char) : List Char → List Char
  | [] => acc.reverse
  | c :: rest => if c = '/' then lastSegmentAux [] rest else lastSegmentAux (c :: acc) rest

/-- The last slash-separated segment of a name. -/
def lastSlashSegment (n : String) : String :=
  String.mk (lastSegmentAux [] n.data)

/-- JS `String.prototype.toLowerCase` (ASCII, which covers every model name
the provider returns). -/
def toLower (s : String) : String :=
  String.mk (s.data.map Char.toLower)

/-- Insert into a sorted list after every element the comparator keeps in
front, preserving the relative order of ties. -/
def stableInsert (le : α → α → Bool) (x : α) : List α → List α
  | [] => [x]
  | y :: ys => if le y x then y :: stableInsert le x ys else x :: y :: ys

/-- A stable sort (V8's `Array.prototype.sort` is stable): elements are
inserted left to right, ties keeping their original order. -/
def stableSort (le : α → α → Bool) (l : List α) : List α :=
  l.foldl (fun acc x => stableInsert le x acc) []

end JsStr

namespace ServerJs

/-- One entry of a session's in-memory `history` array: a Gemini role tag
(`"user"` or `"model"`) and the `parts` text list. -/
structure HistEntry where
  role : String
  parts : List String

/-- The in-memory record `activeSessions[sessionId]`: it holds only the
conversation history (no status field). -/
structure MemSession where
  history : List HistEntry

/-- One entry of the MongoDB `transcript` array (the `time` field, a wall
clock value, is outside the model).  `text` is optional because pushing a
record whose `text` is `undefined` stores no text. -/
structure TranscriptEntry where
  sender : String
  text : Option String

/-- The MongoDB session document fields the decision loop touches
(`sessionId`, `timestamp`, `videoPath`, `environmentLogs` are outside the
claims and omitted). -/
structure SessionDoc where
  status : String
  riskFlag : Bool
  language : String
  transcript : List TranscriptEntry

/-- Classified outcome of the `fetch` to the Gemini generate endpoint in
`getGeminiResponse`.  The code never checks the HTTP status: it parses the
body and looks for `data.candidates`, so an HTTP 429 or 404 error body (which
has no `candidates` key) and an empty candidate list all land in
`jsonBody none`; `exn` is a thrown error (network failure, timeout, or a
non-JSON body making `response.json()` throw, or a candidate without the
expected `content.parts` shape). -/
inductive FetchOutcome where
  | exn : FetchOutcome
  | jsonBody (candText : Option String) : FetchOutcome

/-- JS `String.prototype.indexOf` for a single character. -/
def firstIndexOf (s : String) (c : Char) : Option Nat :=
  s.data.findIdx? (fun x => x == c)

/-- JS `String.prototype.lastIndexOf` for a single character. -/
def lastIndexOf (s : String) (c : Char) : Option Nat :=
  match s.data.reverse.findIdx? (fun x => x == c) with
  | some k => some (s.data.length - 1 - k)
  | none => none

/-- JS `String.prototype.substring`: clamps both indices to the length and
swaps them when start exceeds end. -/
def jsSubstring (s : String) (a b : Nat) : String :=
  let n := s.data.length
  let a' := min a n
  let b' := min b n
  let lo := min a' b'
  let hi := max a' b'
  String.mk ((s.data.drop lo).take (hi - lo))

/-- Embedding of `cleanAndParseJSON` (src/server.js:104): take the substring
from the first opening brace to the last closing brace inclusive and
`JSON.parse` it; `none` models the `null` returns. -/
def cleanAndParseJSON (text : String) : Option MiniJson.JVal :=
  match firstIndexOf text MiniJson.braceOpen, lastIndexOf text MiniJson.braceClose with
  | some firstOpen, some lastClose =>
    MiniJson.parse (jsSubstring text firstOpen (lastClose + 1))
  | _, _ => none

/-- The conversation system prompt `SYSTEM_INSTRUCTION` (src/server.js:24). -/
def SYSTEM_INSTRUCTION : String :=
  "\nROLE: Senior Financial Crime Investigator.\nGOAL: Detect fraud (Pig Butchering, Money Mules) FAST.\n\nCRITICAL RULES:\n1. ASK EXACTLY 3 QUESTIONS TOTAL.\n2. KEEP IT SHORT. One sentence only.\n3. START IMMEDIATELY.\n\nLOGIC:\n- Q1: Purpose of transaction?\n- Q2: Who recommended this? (Probe for \"Online Friend/Teacher\")\n- Q3: Did they promise guaranteed returns?\n\nDECISION:\n- If mentions \"Telegram Task\", \"Job\", \"Mentor\", \"Profits\" -> REJECT.\n- If generic investment -> APPROVE.\n\nOUTPUT FORMAT (JSON ONLY):\n\x7b\n  \"next_question\": \"Text\",\n  \"kyc_status\": \"CONTINUE\" | \"APPROVED\" | \"REJECTED\",\n  \"risk_flag\": boolean\n\x7d\n"

/-- Embedding of `getGeminiResponse` (src/server.js:114): with no API key it
returns a fixed error decision without fetching; otherwise it classifies the
fetch outcome and falls back to a fixed English decision on every failure,
returning the brace-trimmed parse of the candidate text when that succeeds.
The request body built from `history` and `userText` only feeds the upstream
call, so the result depends on them solely through `outcome`. -/
def getGeminiResponse (apiKey : Option String) (history : List HistEntry)
    (userText : String) (outcome : FetchOutcome) : MiniJson.JVal :=
  match apiKey, history, userText with
  | none, _, _ =>
    MiniJson.JVal.obj
      [("next_question", MiniJson.JVal.str "System Error: API Key missing."),
       ("kyc_status", MiniJson.JVal.str "CONTINUE")]
  | some _, _, _ =>
    match outcome with
    | FetchOutcome.exn =>
      MiniJson.JVal.obj
        [("next_question", MiniJson.JVal.str "System glitch."),
         ("kyc_status", MiniJson.JVal.str "CONTINUE"),
         ("risk_flag", MiniJson.JVal.bool false)]
    | FetchOutcome.jsonBody none =>
      MiniJson.JVal.obj
        [("next_question", MiniJson.JVal.str "I didn\x27t hear you."),
         ("kyc_status", MiniJson.JVal.str "CONTINUE"),
         ("risk_flag", MiniJson.JVal.bool false)]
    | FetchOutcome.jsonBody (some raw) =>
      match cleanAndParseJSON raw with
      | none =>
        MiniJson.JVal.obj
          [("next_question", MiniJson.JVal.str "Could you repeat that?"),
           ("kyc_status", MiniJson.JVal.str "CONTINUE"),
           ("risk_flag", MiniJson.JVal.bool false)]
      | some cleaned => cleaned

/-- The fixed opening question of `/api/start` (src/server.js:189), selected
by the session language. -/
def initialQ (language : String) : String :=
  if language = "hi-IN" then "नमस्ते. वेरिफिकेशन के लिए अपना नाम बताएं?"
  else "Hello. Please state your name for verification?"

/-- The MongoDB document `/api/start` saves: status ACTIVE, riskFlag false,
and the opening question as the first transcript entry. -/
def startDoc (language : String) : SessionDoc :=
  { status := "ACTIVE"
    riskFlag := false
    language := language
    transcript := [{ sender := "AI", text := some (initialQ language) }] }

/-- The in-memory session `/api/start` creates: the system instruction as a
user-role entry and the serialized opening decision as a model-role entry.
No upstream call is made: `/api/start` builds this deterministically. -/
def startMemSession (language : String) : MemSession :=
  { history :=
      [{ role := "user", parts := [SYSTEM_INSTRUCTION] },
       { role := "model",
         parts := [MiniJson.stringify (MiniJson.JVal.obj
           [("next_question", MiniJson.JVal.str (initialQ language))])] }] }

/-- The JSON body `/api/start` answers with. -/
def startResponse (language : String) : MiniJson.JVal :=
  MiniJson.JVal.obj
    [("next_question", MiniJson.JVal.str (initialQ language)),
     ("language_code", MiniJson.JVal.str language)]

/-- Embedding of the `findOneAndUpdate` in `/api/process`
(src/server.js:225): push the user utterance and the decision's
`next_question` onto the transcript and `$set` status and riskFlag from the
decision.  Mongoose drops `$set` keys whose value is `undefined`, so a
missing or non-conforming field leaves the stored value unchanged. -/
def processDbUpdate (doc : SessionDoc) (userText : String)
    (aiResp : MiniJson.JVal) : SessionDoc :=
  { doc with
    transcript := doc.transcript ++
      [{ sender := "USER", text := some userText },
       { sender := "AI", text := MiniJson.getStr aiResp "next_question" }]
    status := (MiniJson.getStr aiResp "kyc_status").getD doc.status
    riskFlag := (MiniJson.getBool aiResp "risk_flag").getD doc.riskFlag }

/-- Result of one `/api/process` request: HTTP 404 when the session id is
absent from `activeSessions`, else HTTP 200 carrying the decision. -/
inductive ProcessResult where
  | notFound : ProcessResult
  | ok (aiResp : MiniJson.JVal) : ProcessResult

/-- Embedding of the `/api/process` route (src/server.js:214): look up the
in-memory session (404 when absent), call `getGeminiResponse`, push the
utterance and the serialized decision onto the in-memory history, apply the
MongoDB update, and answer with the decision.  The stored status is never
consulted. -/
def processStep (mem : Option MemSession) (doc : SessionDoc)
    (apiKey : Option String) (outcome : FetchOutcome) (userText : String) :
    ProcessResult × Option MemSession × SessionDoc :=
  match mem with
  | none => (ProcessResult.notFound, none, doc)
  | some s =>
    let aiResp := getGeminiResponse apiKey s.history userText outcome
    let s' : MemSession :=
      { history := s.history ++
          [{ role := "user", parts := [userText] },
           { role := "model", parts := [MiniJson.stringify aiResp] }] }
    (ProcessResult.ok aiResp, some s', processDbUpdate doc userText aiResp)

/-- Whether a fetch outcome is a Gateway failure for `getGeminiResponse`:
a thrown error, a body without candidates (HTTP 429 and 404 error bodies
land here), or candidate text whose brace-trimmed parse fails. -/
def gatewayFailed (outcome : FetchOutcome) : Bool :=
  match outcome with
  | FetchOutcome.exn => true
  | FetchOutcome.jsonBody none => true
  | FetchOutcome.jsonBody (some raw) => (cleanAndParseJSON raw).isNone

end ServerJs

namespace PartOne

/-- One entry of a session's in-memory `history` array in
src/unnamed/part_001 (same shape as in src/server.js). -/
structure HistEntry where
  role : String
  parts : List String

/-- The in-memory record `activeSessions[sessionId]` of part_001. -/
structure MemSession where
  history : List HistEntry

/-- Classified outcome of the `fetch` in part_001's `getGeminiResponse`.
The code reads `data.candidates[0].content.parts[0].text` without any check,
so a body without that shape throws and lands in `exn` together with network
errors; `candText` is the candidate text when present. -/
inductive FetchOutcome where
  | exn : FetchOutcome
  | candText (raw : String) : FetchOutcome

/-- The code-fence stripping applied to the candidate text
(src/unnamed/part_001:81): remove every ```json and ``` occurrence, then
trim. -/
def stripFences (raw : String) : String :=
  JsStr.trim (JsStr.replaceAll (JsStr.replaceAll raw "```json" "") "```" "")

/-- Embedding of part_001's `getGeminiResponse` (src/unnamed/part_001:62):
a missing key returns a fixed decision without fetching; any throw (network
error, malformed body shape, or `JSON.parse` failure on the fence-stripped
text) is caught and becomes the fixed English fallback decision. -/
def getGeminiResponse (apiKey : Option String) (history : List HistEntry)
    (userText : String) (outcome : FetchOutcome) : MiniJson.JVal :=
  match apiKey, history, userText with
  | none, _, _ =>
    MiniJson.JVal.obj
      [("next_question", MiniJson.JVal.str "API Key Missing"),
       ("kyc_status", MiniJson.JVal.str "CONTINUE")]
  | some _, _, _ =>
    match outcome with
    | FetchOutcome.exn =>
      MiniJson.JVal.obj
        [("next_question", MiniJson.JVal.str "I didn\x27t catch that."),
         ("kyc_status", MiniJson.JVal.str "CONTINUE"),
         ("risk_flag", MiniJson.JVal.bool false)]
    | FetchOutcome.candText raw =>
      match MiniJson.parse (stripFences raw) with
      | some v => v
      | none =>
        MiniJson.JVal.obj
          [("next_question", MiniJson.JVal.str "I didn\x27t catch that."),
           ("kyc_status", MiniJson.JVal.str "CONTINUE"),
           ("risk_flag", MiniJson.JVal.bool false)]

/-- The fixed opening question of part_001's `/api/start`
(src/unnamed/part_001:96). -/
def initialQ (language : String) : String :=
  if language = "hi-IN" then "नमस्ते, अपना नाम बताइये?"
  else "Hello, please state your name."

/-- The bootstrap in-memory session of part_001's `/api/start`
(src/unnamed/part_001:111): a single model-role entry holding the serialized
opening decision — no system entry and no user entry. -/
def startMemSession (language : String) : MemSession :=
  { history :=
      [{ role := "model",
         parts := [MiniJson.stringify (MiniJson.JVal.obj
           [("next_question", MiniJson.JVal.str (initialQ language))])] }] }

/-- Result of one part_001 `/api/process` request. -/
inductive ProcessResult where
  | notFound : ProcessResult
  | ok (aiResp : MiniJson.JVal) : ProcessResult

/-- Embedding of part_001's `/api/process` (src/unnamed/part_001:118): same
structure as src/server.js — 404 when the session id is absent, otherwise
two history entries are pushed unconditionally (the utterance and the
serialized decision, fallback included) and the decision is returned. -/
def processStep (mem : Option MemSession) (apiKey : Option String)
    (outcome : FetchOutcome) (userText : String) :
    ProcessResult × Option MemSession :=
  match mem with
  | none => (ProcessResult.notFound, none)
  | some s =>
    let aiResp := getGeminiResponse apiKey s.history userText outcome
    let s' : MemSession :=
      { history := s.history ++
          [{ role := "user", parts := [userText] },
           { role := "model", parts := [MiniJson.stringify aiResp] }] }
    (ProcessResult.ok aiResp, some s')

end PartOne

namespace PartZero

/-- One model record of the provider's discovery listing
(`data.models` in src/unnamed/part_000:66). -/
structure ModelInfo where
  name : String
  supportedGenerationMethods : List String
deriving DecidableEq

/-- Outcome of the discovery fetch in `negotiateBestModel`: `failed` covers
a thrown fetch error and a body carrying `data.error`. -/
inductive Discovery where
  | failed : Discovery
  | ok (models : List ModelInfo) : Discovery

/-- The preference list of `negotiateBestModel`
(src/unnamed/part_000:77). -/
def priorities : List String :=
  ["gemini-1.5-flash", "gemini-1.5-flash-001", "gemini-1.5-pro", "gemini-pro"]

/-- JS `name.split('/').pop()`: the last slash-separated segment. -/
def lastSegment (n : String) : String :=
  JsStr.lastSlashSegment n

/-- JS `String.prototype.endsWith`. -/
def strEndsWith (s p : String) : Bool :=
  p.data.isSuffixOf s.data

/-- The models of a listing that support `generateContent`
(src/unnamed/part_000:72). -/
def validModels (models : List ModelInfo) : List ModelInfo :=
  models.filter (fun m => m.supportedGenerationMethods.contains "generateContent")

/-- The strict-priority scan of `negotiateBestModel`: the first priority
suffix that some valid model name ends with wins. -/
def firstPriorityMatch (valid : List ModelInfo) : List String → Option ModelInfo
  | [] => none
  | p :: ps =>
    match valid.find? (fun m => strEndsWith m.name p) with
    | some m => some m
    | none => firstPriorityMatch valid ps

/-- Embedding of `negotiateBestModel` (src/unnamed/part_000:63): on any
discovery failure or an empty capable list the catch clause defaults to
`"gemini-pro"`; otherwise the first priority match (or the first valid model)
wins, with the `models/` prefix stripped.  The returned string is stored into
`APP_STATE.ACTIVE_MODEL`. -/
def negotiateBestModel (d : Discovery) : String :=
  match d with
  | Discovery.failed => "gemini-pro"
  | Discovery.ok models =>
    match validModels models with
    | [] => "gemini-pro"
    | v0 :: _ =>
      match firstPriorityMatch (validModels models) priorities with
      | some m => lastSegment m.name
      | none => lastSegment v0.name

/-- The process-wide `APP_STATE` fields the decision loop touches. -/
structure AppState where
  activeModel : String

/-- Classified outcome of the generate fetch in
`GeminiService.generateResponse`.  `badBody` is a 2xx response without the
expected `candidates[0].content.parts[0].text` shape (the access throws). -/
inductive GenFetch where
  | netError : GenFetch
  | httpErr (status : Nat) : GenFetch
  | okText (raw : String) : GenFetch
  | badBody : GenFetch

/-- The code-fence stripping in part_000 (src/unnamed/part_000:141). -/
def stripFences (raw : String) : String :=
  JsStr.trim (JsStr.replaceAll (JsStr.replaceAll raw "```json" "") "```" "")

/-- Embedding of `GeminiService.generateResponse`
(src/unnamed/part_000:108): throws (Except.error) with a classified message;
on HTTP 404 it first re-runs `negotiateBestModel` against the current
provider listing `d`, replacing `APP_STATE.ACTIVE_MODEL`, and then throws
`MODEL_NOT_FOUND_RETRYING`.  On success it returns `JSON.parse` of the
fence-stripped candidate text. -/
def generateResponse (apiKey : Option String) (st : AppState) (f : GenFetch)
    (d : Discovery) : Except String MiniJson.JVal × AppState :=
  match apiKey with
  | none => (Except.error "GEMINI_API_KEY is missing.", st)
  | some _ =>
    match f with
    | GenFetch.netError => (Except.error "fetch failed", st)
    | GenFetch.httpErr 404 =>
      (Except.error "MODEL_NOT_FOUND_RETRYING", { activeModel := negotiateBestModel d })
    | GenFetch.httpErr 429 => (Except.error "RATE_LIMIT", st)
    | GenFetch.httpErr status =>
      (Except.error ("Google API Error (" ++ toString status ++ ")"), st)
    | GenFetch.badBody => (Except.error "cannot read candidates", st)
    | GenFetch.okText raw =>
      match MiniJson.parse (stripFences raw) with
      | some v => (Except.ok v, st)
      | none => (Except.error "JSON parse error", st)

/-- One entry of a part_000 session history (role `"user"` or `"ai"`). -/
structure SessionEntry where
  role : String
  text : String

/-- A part_000 session record from `sessionStore` (src/unnamed/part_000:172):
id, the configured language, and the history. -/
structure Session where
  id : String
  language : String
  history : List SessionEntry

/-- The catch-clause fallback text of part_000's `/api/process`
(src/unnamed/part_000:219). -/
def fallbackText (errMsg : String) : String :=
  if errMsg = "RATE_LIMIT" then "One moment please, I am processing..."
  else "I didn\x27t quite catch that. Could you repeat?"

/-- Result of one part_000 `/api/process` request. -/
inductive ProcessResult where
  | notFound : ProcessResult
  | ok (body : MiniJson.JVal) : ProcessResult

/-- Embedding of part_000's `/api/process` (src/unnamed/part_000:203): 404
when the session id is absent; on success push the utterance and serialized
decision and answer the decision; on any `generateResponse` throw answer a
fallback decision built from the session's configured language with status
CONTINUE, leaving the history untouched. -/
def processStep (sess : Option Session) (apiKey : Option String)
    (st : AppState) (f : GenFetch) (d : Discovery) (userText : String) :
    ProcessResult × Option Session × AppState :=
  match sess with
  | none => (ProcessResult.notFound, none, st)
  | some s =>
    match generateResponse apiKey st f d with
    | (Except.ok v, st') =>
      (ProcessResult.ok v,
       some { s with history := s.history ++
           [{ role := "user", text := userText },
            { role := "ai", text := MiniJson.stringify v }] },
       st')
    | (Except.error msg, st') =>
      (ProcessResult.ok (MiniJson.JVal.obj
         [("spoken_response", MiniJson.JVal.str (fallbackText msg)),
          ("language_code", MiniJson.JVal.str s.language),
          ("status", MiniJson.JVal.str "CONTINUE")]),
       some s, st')

end PartZero

namespace ReadmeVar

/-- The process-wide model cache `ACTIVE_MODEL_NAME` of the README-embedded
variant (src/README.md:87); `none` models the initial `null`. -/
structure CacheState where
  activeModel : Option String

/-- Outcome of the discovery fetch in `discoverModel`: `err` covers a thrown
fetch error, a `data.error` body, and the zero-candidate case is kept
separate in the listing itself. -/
inductive Discovery where
  | err : Discovery
  | ok (models : List PartZero.ModelInfo) : Discovery

/-- Whether `pat` occurs inside `s` (JS `String.prototype.includes`). -/
def containsSub (s pat : String) : Bool :=
  (List.range (s.data.length + 1)).any (fun i => pat.data.isPrefixOf (s.data.drop i))

/-- The ranking of `discoverModel`'s comparator (src/README.md:146): names
containing `flash` score 2, names containing `preview` score 0, all other
names score 1; sorting is descending by score and stable, as V8's
`Array.prototype.sort`. -/
def score (name : String) : Nat :=
  let n := JsStr.toLower name
  if containsSub n "flash" then 2
  else if containsSub n "preview" then 0
  else 1

/-- Result of an operation in a process that may call `process.exit(1)`. -/
inductive RVOut (α : Type) where
  | exit : RVOut α
  | value (v : α) : RVOut α

/-- Embedding of `discoverModel` (src/README.md:137): return the cached name
when one is set, without touching the provider; otherwise run discovery and
on any failure — unreachable listing, `data.error`, or zero
`generateContent`-capable candidates — call `process.exit(1)`.  The winning
candidate keeps its full `models/...` name. -/
def discoverModel (st : CacheState) (d : Discovery) :
    RVOut (String × CacheState) :=
  match st.activeModel with
  | some m => RVOut.value (m, st)
  | none =>
    match d with
    | Discovery.err => RVOut.exit
    | Discovery.ok models =>
      let candidates :=
        JsStr.stableSort (fun a b => score b.name ≤ score a.name)
          (PartZero.validModels models)
      match candidates with
      | [] => RVOut.exit
      | c :: _ => RVOut.value (c.name, { activeModel := some c.name })

/-- The conversation system prompt `SYSTEM_INSTRUCTION` of the
README-embedded variant (src/README.md:90). -/
def SYSTEM_INSTRUCTION : String :=
  "\nROLE: You are a Senior Financial Crime Investigator for Onramp.money.\nGOAL: Your ONLY purpose is to protect the user from scams (Pig Butchering, Task Scams, Money Mules).\nTONE: Professional, Firm, Skeptical but Polite.\n\nINSTRUCTION: \nDo NOT follow a fixed list of questions. You must Listen -> Analyze -> Probe.\nYou must evolve your questions based on the user\x27s previous answer to detect inconsistencies.\n\nPHASE 1: CRYPTO KNOWLEDGE CHECK (Start Here)\n- Ask open-ended questions like \"Why are you buying crypto today?\" or \"How does this specific token work?\"\n- If they give a vague answer like \"For investment\" -> PROBE: \"Who specifically recommended this investment to you?\"\n- If they use technical jargon incorrectly -> FLAG AS SUSPICIOUS.\n\nPHASE 2: SOURCE & INFLUENCE DETECTION (The most critical part)\n- If they mention a \"Friend\", \"Partner\", or \"Mentor\" -> ASK: \"Have you met this person in real life, or only online?\"\n- If they mention \"Telegram\", \"WhatsApp Group\", or \"Signal\" -> ASK: \"Did they add you to a group promise guaranteed returns?\"\n- If they mention \"Job\", \"Task\", or \"Salary\" -> THIS IS A HUGE RED FLAG. Ask: \"Are you being asked to move money for a job?\"\n\nPHASE 3: COERCION CHECK\n- Watch for short, one-word answers (Yes/No). This suggests they are being coached.\n- ASK: \"Is anyone in the room with you right now telling you what to say?\"\n- ASK: \"Did someone send you a script or answers to read?\"\n\nDECISION LOGIC:\n- KYC_STATUS: \"APPROVED\" -> Only if user clearly understands crypto, knows the risks, and acting 100% independently.\n- KYC_STATUS: \"REJECTED\" -> If ANY mention of: \"Task scam\", \"Online GF/BF\", \"Telegram Mentor\", \"Guaranteed Profits\", \"Moving money for others\".\n- KYC_STATUS: \"CONTINUE\" -> If you need more information to decide.\n\nOUTPUT JSON FORMAT ONLY:\n\x7b\n  \"next_question\": \"String (Text to speak in the SELECTED LANGUAGE. Keep it under 2 sentences.)\",\n  \"language_code\": \"String (Return the same language code used by user: \x27en-IN\x27 or \x27hi-IN\x27)\",\n  \"risk_flag\": Boolean,\n  \"kyc_status\": \"CONTINUE\" | \"REJECTED\" | \"APPROVED\"\n\x7d\n"

/-- The `INITIAL_GREETINGS` map (src/README.md:129); `none` models the
`undefined` a lookup of any other key yields. -/
def INITIAL_GREETINGS (lang : String) : Option String :=
  if lang = "en-IN" then
    some "Hello. I am the Compliance Officer. For your security, I need to ask a few questions. First, in your own words, explain why you are buying cryptocurrency today?"
  else if lang = "hi-IN" then
    some "नमस्ते. मैं अनुपालन अधिकारी हूँ. आपकी सुरक्षा के लिए, मुझे कुछ सवाल पूछने होंगे. सबसे पहले, अपने शब्दों में बताएं कि आज आप क्रिप्टोकरेंसी क्यों खरीद रहे हैं?"
  else none

/-- The language clause appended to the system prompt at session start
(src/README.md:204). -/
def langInstruction (selectedLang : String) : String :=
  "\n        CRITICAL: The user has selected language: " ++ selectedLang ++
  ". \n        You MUST conduct the entire interview in this language.\n        If " ++
  selectedLang ++
  " is Hindi (\x27hi-IN\x27), use Hindi (Devanagari script).\n        "

/-- One entry of a README-variant session history. -/
structure HistEntry where
  role : String
  parts : List String

/-- A README-variant session record (src/README.md:202): its status is set
to `"ACTIVE"` at creation and never read or written again. -/
structure Session where
  history : List HistEntry
  status : String

/-- The opening decision object `/api/start` builds (src/README.md:215);
when the greeting lookup yields `undefined` the serialized object carries no
`next_question` key. -/
def initialResp (selectedLang : String) : MiniJson.JVal :=
  match INITIAL_GREETINGS selectedLang with
  | some q =>
    MiniJson.JVal.obj
      [("next_question", MiniJson.JVal.str q),
       ("language_code", MiniJson.JVal.str selectedLang),
       ("risk_flag", MiniJson.JVal.bool false),
       ("kyc_status", MiniJson.JVal.str "CONTINUE")]
  | none =>
    MiniJson.JVal.obj
      [("language_code", MiniJson.JVal.str selectedLang),
       ("risk_flag", MiniJson.JVal.bool false),
       ("kyc_status", MiniJson.JVal.str "CONTINUE")]

/-- What a successful README-variant `/api/start` produces. -/
structure StartOut where
  response : MiniJson.JVal
  state : CacheState
  session : Session

/-- Embedding of the README-variant `/api/start` (src/README.md:193): it
first awaits `discoverModel`, so a failed discovery with an empty cache
exits the whole process before any session exists; otherwise it creates an
ACTIVE session seeded with the system prompt plus language clause and the
serialized opening decision, and answers the opening decision. -/
def startStep (st : CacheState) (d : Discovery) (language : Option String) :
    RVOut StartOut :=
  match discoverModel st d with
  | RVOut.exit => RVOut.exit
  | RVOut.value (_, st') =>
    let selectedLang := language.getD "en-IN"
    RVOut.value
      { response := initialResp selectedLang
        state := st'
        session :=
          { history :=
              [{ role := "user",
                 parts := [SYSTEM_INSTRUCTION ++ langInstruction selectedLang ++
                   "\n\n(Start the interview now)"] },
               { role := "model",
                 parts := [MiniJson.stringify (initialResp selectedLang)] }]
            status := "ACTIVE" } }

/-- Classified outcome of the generate fetch in `callGemini`. -/
inductive GenFetch where
  | netError : GenFetch
  | httpErr (status : Nat) : GenFetch
  | okText (raw : String) : GenFetch
  | badBody : GenFetch

/-- The code-fence stripping in `callGemini` (src/README.md:188). -/
def stripFences (raw : String) : String :=
  JsStr.trim (JsStr.replaceAll (JsStr.replaceAll raw "```json" "") "```" "")

/-- Embedding of `callGemini` (src/README.md:164): it first awaits
`discoverModel` (which only reuses the cache once one is set), then throws
on any non-ok HTTP status — `Rate Limit Hit` for 429, a generic
`Gemini API Error` otherwise.  Crucially, no status (404 included) clears
`ACTIVE_MODEL_NAME`. -/
def callGemini (st : CacheState) (d : Discovery) (f : GenFetch) :
    RVOut (Except String MiniJson.JVal × CacheState) :=
  match discoverModel st d with
  | RVOut.exit => RVOut.exit
  | RVOut.value (_, st') =>
    match f with
    | GenFetch.netError => RVOut.value (Except.error "fetch failed", st')
    | GenFetch.httpErr 429 => RVOut.value (Except.error "Rate Limit Hit", st')
    | GenFetch.httpErr status =>
      RVOut.value (Except.error ("Gemini API Error: " ++ toString status), st')
    | GenFetch.badBody => RVOut.value (Except.error "cannot read candidates", st')
    | GenFetch.okText raw =>
      match MiniJson.parse (stripFences raw) with
      | some v => RVOut.value (Except.ok v, st')
      | none => RVOut.value (Except.error "JSON parse error", st')

/-- Result of one README-variant `/api/process` request. -/
inductive ProcessResult where
  | notFound : ProcessResult
  | ok (body : MiniJson.JVal) : ProcessResult

/-- Embedding of the README-variant `/api/process` (src/README.md:235): 404
when the session id is absent; on success push the utterance (with the
appended analysis clause sent to the model only) and the serialized decision
and answer the decision; on any throw answer the fixed fallback with
`language_code` pinned to `en-IN`.  The session's `status` field is never
consulted or updated. -/
def processStep (sess : Option Session) (st : CacheState) (d : Discovery)
    (f : GenFetch) (userText : String) :
    ProcessResult × Option Session × CacheState :=
  match sess with
  | none => (ProcessResult.notFound, none, st)
  | some s =>
    match callGemini st d f with
    | RVOut.exit => (ProcessResult.notFound, some s, st)
    | RVOut.value (Except.ok v, st') =>
      (ProcessResult.ok v,
       some { s with history := s.history ++
           [{ role := "user", parts := [userText] },
            { role := "model", parts := [MiniJson.stringify v] }] },
       st')
    | RVOut.value (Except.error _, st') =>
      (ProcessResult.ok (MiniJson.JVal.obj
         [("next_question", MiniJson.JVal.str "Connection error. Please wait."),
          ("language_code", MiniJson.JVal.str "en-IN"),
          ("kyc_status", MiniJson.JVal.str "CONTINUE")]),
       some s, st')

end ReadmeVar

section Helpers

/-- A model returned by the strict-priority scan belongs to the scanned
list. -/
theorem firstPriorityMatch_mem (valid : List PartZero.ModelInfo) (ps : List String)
    (m : PartZero.ModelInfo) (h : PartZero.firstPriorityMatch valid ps = some m) :
    m ∈ valid := by
  induction ps with
  | nil => simp [PartZero.firstPriorityMatch] at h
  | cons p ps ih =>
    unfold PartZero.firstPriorityMatch at h
    cases hf : valid.find? (fun mm => PartZero.strEndsWith mm.name p) with
    | some mm =>
      rw [hf] at h
      cases h
      exact List.mem_of_find?_eq_some hf
    | none =>
      rw [hf] at h
      exact ih h

/-- When the listing offers at least one `generateContent`-capable model,
`negotiateBestModel` selects the stripped name of one of them. -/
theorem negotiateBestModel_mem (models : List PartZero.ModelInfo)
    (h : PartZero.validModels models ≠ []) :
    PartZero.negotiateBestModel (PartZero.Discovery.ok models) ∈
      (PartZero.validModels models).map (fun m => PartZero.lastSegment m.name) := by
  simp only [PartZero.negotiateBestModel]
  cases hv : PartZero.validModels models with
  | nil => exact absurd hv h
  | cons v0 rest =>
    cases hm : PartZero.firstPriorityMatch (v0 :: rest) PartZero.priorities with
    | some m =>
      simp only [hm]
      exact List.mem_map_of_mem _ (firstPriorityMatch_mem _ _ _ hm)
    | none =>
      simp only [hm]
      exact List.mem_map_of_mem _ (List.mem_cons_self v0 rest)

end Helpers

/-- Claim C3: every `/api/process` turn on an existing session grows the
in-memory history by exactly two entries (the respondent utterance and the
serialized decision), and the bootstrap history that part_001's `/api/start`
seeds is a single investigator-only (model-role) entry. -/
theorem c3_history_grows_by_two :
    (∀ (s : ServerJs.MemSession) (doc : ServerJs.SessionDoc) (key : Option String)
        (o : ServerJs.FetchOutcome) (txt : String),
      ((ServerJs.processStep (some s) doc key o txt).2.1).map
          (fun m => m.history.length) = some (s.history.length + 2))
  ∧ (∀ lang : String,
      (PartOne.startMemSession lang).history.length = 1
      ∧ (PartOne.startMemSession lang).history.map (fun e => e.role) = ["model"]) := by
  constructor
  · intro s doc key o txt
    simp [ServerJs.processStep]
  · intro lang
    exact ⟨rfl, rfl⟩

/-- Amended claim C4: in src/server.js, `cleanAndParseJSON` takes the
substring from the first opening brace to the last closing brace inclusive
and JSON-decodes it, so a record wrapped in prose and code fences decodes,
while inputs without a brace pair or with a malformed bracketed substring
yield the error result `none`; the part_000 parse step instead strips the
code-fence markers and strictly JSON-decodes the remainder, so it tolerates
fences but reports a parse error for a record embedded in prose. -/
theorem c4_brace_trim_parse :
    ServerJs.cleanAndParseJSON "blah blah ```json \x7b\"a\":1\x7d ``` more blah" =
        some (MiniJson.JVal.obj [("a", MiniJson.JVal.num 1)])
  ∧ ServerJs.cleanAndParseJSON "no braces here" = none
  ∧ ServerJs.cleanAndParseJSON "\x7bunterminated" = none
  ∧ (∀ t : String,
      ServerJs.firstIndexOf t MiniJson.braceOpen = none
        ∨ ServerJs.lastIndexOf t MiniJson.braceClose = none →
      ServerJs.cleanAndParseJSON t = none)
  ∧ (∀ (t : String) (i j : Nat),
      ServerJs.firstIndexOf t MiniJson.braceOpen = some i →
      ServerJs.lastIndexOf t MiniJson.braceClose = some j →
      ServerJs.cleanAndParseJSON t = MiniJson.parse (ServerJs.jsSubstring t i (j + 1)))
  ∧ MiniJson.parse (PartZero.stripFences "```json \x7b\"a\":1\x7d ```") =
      some (MiniJson.JVal.obj [("a", MiniJson.JVal.num 1)])
  ∧ MiniJson.parse
      (PartZero.stripFences "blah blah ```json \x7b\"a\":1\x7d ``` more blah") = none := by
  refine ⟨rfl, rfl, rfl, ?_, ?_, rfl, rfl⟩
  · intro t h
    rcases h with h | h <;>
      cases hf : ServerJs.firstIndexOf t MiniJson.braceOpen <;>
        cases hl : ServerJs.lastIndexOf t MiniJson.braceClose <;>
          simp_all [ServerJs.cleanAndParseJSON]
  · intro t i j h1 h2
    simp [ServerJs.cleanAndParseJSON, h1, h2]

/-- Witness for C4: a concrete input with a brace at index 1 and a closing
brace at index 2 goes through the brace-locating branch. -/
theorem c4_witness :
    ServerJs.cleanAndParseJSON "x\x7b\x7dy" =
      MiniJson.parse (ServerJs.jsSubstring "x\x7b\x7dy" 1 3) :=
  c4_brace_trim_parse.2.2.2.2.1 "x\x7b\x7dy" 1 2 rfl rfl

/-- Counterexample to claim C4: the claim is stated for every parse step it
cites, but part_000's (fence-strip then strict decode) rejects the very
record-embedded-in-prose example the claim requires to decode — its
`generateResponse` turns that candidate text into a thrown parse error while
src/server.js's `cleanAndParseJSON` decodes it. -/
theorem c4_counterexample :
    MiniJson.parse
        (PartZero.stripFences "blah blah ```json \x7b\"a\":1\x7d ``` more blah") = none
  ∧ PartZero.generateResponse (some "key") ⟨"gemini-1.5-flash"⟩
        (PartZero.GenFetch.okText "blah blah ```json \x7b\"a\":1\x7d ``` more blah")
        (PartZero.Discovery.ok []) =
      (Except.error "JSON parse error", ⟨"gemini-1.5-flash"⟩)
  ∧ ServerJs.cleanAndParseJSON "blah blah ```json \x7b\"a\":1\x7d ``` more blah" =
      some (MiniJson.JVal.obj [("a", MiniJson.JVal.num 1)]) :=
  ⟨rfl, rfl, rfl⟩

/-- Counterexample to claim C5: a decoded record that has neither a
next-prompt string nor a status value is returned to the Decision Engine
unchanged — `getGeminiResponse` hands back `\x7b"foo":1\x7d` even though it
lacks both required fields, instead of reporting a parse error. -/
theorem c5_counterexample :
    ServerJs.getGeminiResponse (some "key") [] "hi"
        (ServerJs.FetchOutcome.jsonBody (some "\x7b\"foo\":1\x7d")) =
      MiniJson.JVal.obj [("foo", MiniJson.JVal.num 1)]
  ∧ MiniJson.hasField (MiniJson.JVal.obj [("foo", MiniJson.JVal.num 1)]) "next_question" = false
  ∧ MiniJson.hasField (MiniJson.JVal.obj [("foo", MiniJson.JVal.num 1)]) "kyc_status" = false :=
  ⟨rfl, rfl, rfl⟩

/-- Amended claim C5: the parse step validates only JSON well-formedness.
Whenever the brace-trimmed candidate text decodes, `getGeminiResponse`
returns the decoded record as-is, with no check that a next-prompt string or
a decision-enum status is present; the please-repeat fallback arises only
when decoding itself fails. -/
theorem c5_no_field_validation (key : String) (history : List ServerJs.HistEntry)
    (userText raw : String) (v : MiniJson.JVal)
    (h : ServerJs.cleanAndParseJSON raw = some v) :
    ServerJs.getGeminiResponse (some key) history userText
      (ServerJs.FetchOutcome.jsonBody (some raw)) = v := by
  simp [ServerJs.getGeminiResponse, h]

/-- Witness for the amended C5: a record missing every required field is
still returned unchanged. -/
theorem c5_witness :
    ServerJs.getGeminiResponse (some "key") [] "hi"
        (ServerJs.FetchOutcome.jsonBody (some "\x7b\"x\":true\x7d")) =
      MiniJson.JVal.obj [("x", MiniJson.JVal.bool true)] :=
  c5_no_field_validation "key" [] "hi" "\x7b\"x\":true\x7d"
    (MiniJson.JVal.obj [("x", MiniJson.JVal.bool true)]) rfl

/-- Claim C9: a turn never changes the session's stored language.  In
src/server.js the MongoDB update sets only status, riskFlag and transcript,
whatever `language_code` the decision carries; in part_000 the session
record's `language` field survives both the success and the fallback path
of `/api/process`. -/
theorem c9_language_preserved :
    (∀ (s : ServerJs.MemSession) (doc : ServerJs.SessionDoc) (key : Option String)
        (o : ServerJs.FetchOutcome) (txt : String),
      (ServerJs.processStep (some s) doc key o txt).2.2.language = doc.language)
  ∧ (∀ (doc : ServerJs.SessionDoc) (txt : String) (aiResp : MiniJson.JVal),
      (ServerJs.processDbUpdate doc txt aiResp).language = doc.language)
  ∧ (∀ (s : PartZero.Session) (key : Option String) (st : PartZero.AppState)
        (f : PartZero.GenFetch) (d : PartZero.Discovery) (txt : String),
      ((PartZero.processStep (some s) key st f d txt).2.1).map
          (fun x => x.language) = some s.language) := by
  refine ⟨?_, ?_, ?_⟩
  · intro s doc key o txt
    rfl
  · intro doc txt aiResp
    rfl
  · intro s key st f d txt
    rcases hg : PartZero.generateResponse key st f d with ⟨res, st2⟩
    cases res <;> simp [PartZero.processStep, hg]

/-- Claim C10 (implicit): in the src/server.js and part_001 variants every
`/api/process` call on an existing session appends exactly the respondent
utterance and the serialized decision to the history — for every fetch
outcome, Gateway failures included, since the fallback decision is
serialized and recorded exactly like a model decision. -/
theorem c10_failed_turns_append_two :
    (∀ (s : ServerJs.MemSession) (doc : ServerJs.SessionDoc) (key : Option String)
        (o : ServerJs.FetchOutcome) (txt : String),
      ((ServerJs.processStep (some s) doc key o txt).2.1).map (fun m => m.history) =
        some (s.history ++
          [{ role := "user", parts := [txt] },
           { role := "model",
             parts := [MiniJson.stringify
               (ServerJs.getGeminiResponse key s.history txt o)] }]))
  ∧ (∀ (s : PartOne.MemSession) (key : Option String) (o : PartOne.FetchOutcome)
        (txt : String),
      ((PartOne.processStep (some s) key o txt).2).map (fun m => m.history) =
        some (s.history ++
          [{ role := "user", parts := [txt] },
           { role := "model",
             parts := [MiniJson.stringify
               (PartOne.getGeminiResponse key s.history txt o)] }])) :=
  ⟨fun _ _ _ _ _ => rfl, fun _ _ _ _ => rfl⟩

/-- Counterexample to claim C1: a session whose persisted status is already
APPROVED is processed again without any failure — the call returns the new
decision, the in-memory history grows from 0 to 2 entries, and the persisted
status is overwritten from APPROVED back to CONTINUE. -/
theorem c1_counterexample :
    (ServerJs.processStep (some ⟨[]⟩)
        { status := "APPROVED", riskFlag := false, language := "en-IN", transcript := [] }
        (some "key")
        (ServerJs.FetchOutcome.jsonBody
          (some "\x7b\"next_question\":\"q\",\"kyc_status\":\"CONTINUE\",\"risk_flag\":false\x7d"))
        "hello").1 =
      ServerJs.ProcessResult.ok (MiniJson.JVal.obj
        [("next_question", MiniJson.JVal.str "q"),
         ("kyc_status", MiniJson.JVal.str "CONTINUE"),
         ("risk_flag", MiniJson.JVal.bool false)])
  ∧ ((ServerJs.processStep (some ⟨[]⟩)
        { status := "APPROVED", riskFlag := false, language := "en-IN", transcript := [] }
        (some "key")
        (ServerJs.FetchOutcome.jsonBody
          (some "\x7b\"next_question\":\"q\",\"kyc_status\":\"CONTINUE\",\"risk_flag\":false\x7d"))
        "hello").2.1).map (fun m => m.history.length) = some 2
  ∧ (ServerJs.processStep (some ⟨[]⟩)
        { status := "APPROVED", riskFlag := false, language := "en-IN", transcript := [] }
        (some "key")
        (ServerJs.FetchOutcome.jsonBody
          (some "\x7b\"next_question\":\"q\",\"kyc_status\":\"CONTINUE\",\"risk_flag\":false\x7d"))
        "hello").2.2.status = "CONTINUE"
  ∧ "CONTINUE" ≠ "APPROVED" :=
  ⟨rfl, rfl, rfl, by decide⟩

/-- Amended claim C1: `/api/process` rejects a turn only when the session id
is absent from the in-memory store (HTTP 404, store and document untouched);
the stored status is never consulted, so a call on a session whose persisted
status is APPROVED or REJECTED still succeeds, appends two history entries,
and overwrites the persisted status with the new decision's status field —
terminal states are not monotonic. -/
theorem c1_terminal_not_enforced :
    (∀ (doc : ServerJs.SessionDoc) (key : Option String) (o : ServerJs.FetchOutcome)
        (txt : String),
      ServerJs.processStep none doc key o txt = (ServerJs.ProcessResult.notFound, none, doc))
  ∧ (∀ (s : ServerJs.MemSession) (doc : ServerJs.SessionDoc) (key : Option String)
        (o : ServerJs.FetchOutcome) (txt : String),
      doc.status = "APPROVED" ∨ doc.status = "REJECTED" →
      (ServerJs.processStep (some s) doc key o txt).1 =
          ServerJs.ProcessResult.ok (ServerJs.getGeminiResponse key s.history txt o)
        ∧ ((ServerJs.processStep (some s) doc key o txt).2.1).map
            (fun m => m.history.length) = some (s.history.length + 2)
        ∧ (ServerJs.processStep (some s) doc key o txt).2.2.status =
            (MiniJson.getStr (ServerJs.getGeminiResponse key s.history txt o)
              "kyc_status").getD doc.status) := by
  constructor
  · intro doc key o txt
    rfl
  · intro s doc key o txt _
    refine ⟨rfl, ?_, rfl⟩
    simp [ServerJs.processStep]

/-- Witness for the amended C1: a concrete APPROVED session is processed
again and its persisted status is recomputed from the decision. -/
theorem c1_witness :
    (ServerJs.processStep (some ⟨[]⟩)
        { status := "APPROVED", riskFlag := true, language := "en-IN", transcript := [] }
        (some "key") ServerJs.FetchOutcome.exn "again").1 =
        ServerJs.ProcessResult.ok
          (ServerJs.getGeminiResponse (some "key") [] "again" ServerJs.FetchOutcome.exn)
      ∧ ((ServerJs.processStep (some ⟨[]⟩)
          { status := "APPROVED", riskFlag := true, language := "en-IN", transcript := [] }
          (some "key") ServerJs.FetchOutcome.exn "again").2.1).map
            (fun m => m.history.length) = some (([] : List ServerJs.HistEntry).length + 2)
      ∧ (ServerJs.processStep (some ⟨[]⟩)
          { status := "APPROVED", riskFlag := true, language := "en-IN", transcript := [] }
          (some "key") ServerJs.FetchOutcome.exn "again").2.2.status =
          (MiniJson.getStr
            (ServerJs.getGeminiResponse (some "key") [] "again" ServerJs.FetchOutcome.exn)
            "kyc_status").getD "APPROVED" :=
  c1_terminal_not_enforced.2 ⟨[]⟩
    { status := "APPROVED", riskFlag := true, language := "en-IN", transcript := [] }
    (some "key") ServerJs.FetchOutcome.exn "again" (Or.inl rfl)

/-- Counterexample to claim C2: on a Gateway failure (an HTTP 429 or 404
error body has no candidates, landing in `jsonBody none`) against a hi-IN
session whose riskFlag is true, the returned prompt is the fixed English
string rather than one in the session's language, and the persisted riskFlag
is overwritten from true to false — not left unchanged. -/
theorem c2_counterexample :
    (ServerJs.processStep (some ⟨[]⟩)
        { status := "ACTIVE", riskFlag := true, language := "hi-IN", transcript := [] }
        (some "key") (ServerJs.FetchOutcome.jsonBody none) "उत्तर").1 =
      ServerJs.ProcessResult.ok (MiniJson.JVal.obj
        [("next_question", MiniJson.JVal.str "I didn\x27t hear you."),
         ("kyc_status", MiniJson.JVal.str "CONTINUE"),
         ("risk_flag", MiniJson.JVal.bool false)])
  ∧ ({ status := "ACTIVE", riskFlag := true, language := "hi-IN",
       transcript := [] : ServerJs.SessionDoc }).riskFlag = true
  ∧ (ServerJs.processStep (some ⟨[]⟩)
        { status := "ACTIVE", riskFlag := true, language := "hi-IN", transcript := [] }
        (some "key") (ServerJs.FetchOutcome.jsonBody none) "उत्तर").2.2.riskFlag = false :=
  ⟨rfl, rfl, rfl⟩

/-- Amended claim C2: on every Gateway failure `getGeminiResponse` returns a
decision with status CONTINUE — never APPROVED or REJECTED — whose prompt is
one of three fixed English please-repeat strings regardless of the session's
configured language, and the database update then overwrites the persisted
status with CONTINUE and the persisted riskFlag with false (rather than
leaving the riskFlag unchanged). -/
theorem c2_fallback_safety (key : String) (doc : ServerJs.SessionDoc)
    (history : List ServerJs.HistEntry) (txt : String) (o : ServerJs.FetchOutcome)
    (hfail : ServerJs.gatewayFailed o = true) :
    MiniJson.getStr (ServerJs.getGeminiResponse (some key) history txt o) "kyc_status" =
        some "CONTINUE"
  ∧ (MiniJson.getStr (ServerJs.getGeminiResponse (some key) history txt o) "next_question" =
        some "System glitch."
     ∨ MiniJson.getStr (ServerJs.getGeminiResponse (some key) history txt o) "next_question" =
        some "I didn\x27t hear you."
     ∨ MiniJson.getStr (ServerJs.getGeminiResponse (some key) history txt o) "next_question" =
        some "Could you repeat that?")
  ∧ (ServerJs.processDbUpdate doc txt
        (ServerJs.getGeminiResponse (some key) history txt o)).status = "CONTINUE"
  ∧ (ServerJs.processDbUpdate doc txt
        (ServerJs.getGeminiResponse (some key) history txt o)).riskFlag = false := by
  cases o with
  | exn => exact ⟨rfl, Or.inl rfl, rfl, rfl⟩
  | jsonBody c =>
    cases c with
    | none => exact ⟨rfl, Or.inr (Or.inl rfl), rfl, rfl⟩
    | some raw =>
      have hnone : ServerJs.cleanAndParseJSON raw = none := by
        simpa [ServerJs.gatewayFailed, Option.isNone_iff_eq_none] using hfail
      refine ⟨?_, Or.inr (Or.inr ?_), ?_, ?_⟩ <;>
        · simp only [ServerJs.getGeminiResponse, hnone]
          rfl

/-- Witness for the amended C2: a thrown fetch error on an ACTIVE hi-IN
session with riskFlag true. -/
theorem c2_witness :
    MiniJson.getStr
        (ServerJs.getGeminiResponse (some "key") [] "उत्तर" ServerJs.FetchOutcome.exn)
        "kyc_status" = some "CONTINUE"
  ∧ (MiniJson.getStr
        (ServerJs.getGeminiResponse (some "key") [] "उत्तर" ServerJs.FetchOutcome.exn)
        "next_question" = some "System glitch."
     ∨ MiniJson.getStr
        (ServerJs.getGeminiResponse (some "key") [] "उत्तर" ServerJs.FetchOutcome.exn)
        "next_question" = some "I didn\x27t hear you."
     ∨ MiniJson.getStr
        (ServerJs.getGeminiResponse (some "key") [] "उत्तर" ServerJs.FetchOutcome.exn)
        "next_question" = some "Could you repeat that?")
  ∧ (ServerJs.processDbUpdate
        { status := "ACTIVE", riskFlag := true, language := "hi-IN", transcript := [] }
        "उत्तर"
        (ServerJs.getGeminiResponse (some "key") [] "उत्तर"
          ServerJs.FetchOutcome.exn)).status = "CONTINUE"
  ∧ (ServerJs.processDbUpdate
        { status := "ACTIVE", riskFlag := true, language := "hi-IN", transcript := [] }
        "उत्तर"
        (ServerJs.getGeminiResponse (some "key") [] "उत्तर"
          ServerJs.FetchOutcome.exn)).riskFlag = false :=
  c2_fallback_safety "key"
    { status := "ACTIVE", riskFlag := true, language := "hi-IN", transcript := [] }
    [] "उत्तर" ServerJs.FetchOutcome.exn rfl

/-- Counterexample to claim C7: with `GEMINI_API_KEY` absent the server
still serves — a `/api/process` turn succeeds with HTTP 200, answering the
fixed "System Error: API Key missing." decision with status CONTINUE and
growing the history by two entries, instead of the process having refused to
start. -/
theorem c7_counterexample :
    (ServerJs.processStep (some ⟨[]⟩)
        { status := "ACTIVE", riskFlag := false, language := "en-IN", transcript := [] }
        none ServerJs.FetchOutcome.exn "hello").1 =
      ServerJs.ProcessResult.ok (MiniJson.JVal.obj
        [("next_question", MiniJson.JVal.str "System Error: API Key missing."),
         ("kyc_status", MiniJson.JVal.str "CONTINUE")])
  ∧ ((ServerJs.processStep (some ⟨[]⟩)
        { status := "ACTIVE", riskFlag := false, language := "en-IN", transcript := [] }
        none ServerJs.FetchOutcome.exn "hello").2.1).map
          (fun m => m.history.length) = some 2 :=
  ⟨rfl, rfl⟩

/-- Amended claim C7: a missing credential is not fatal at startup.
`app.listen` runs unconditionally; every interview turn then succeeds with
the fixed "System Error: API Key missing." CONTINUE decision, produced
before any upstream call, and the conversation state keeps growing. -/
theorem c7_serves_without_key :
    ∀ (s : ServerJs.MemSession) (doc : ServerJs.SessionDoc)
      (o : ServerJs.FetchOutcome) (txt : String),
      (ServerJs.processStep (some s) doc none o txt).1 =
        ServerJs.ProcessResult.ok (MiniJson.JVal.obj
          [("next_question", MiniJson.JVal.str "System Error: API Key missing."),
           ("kyc_status", MiniJson.JVal.str "CONTINUE")])
      ∧ ((ServerJs.processStep (some s) doc none o txt).2.1).map
          (fun m => m.history.length) = some (s.history.length + 2) := by
  intro s doc o txt
  refine ⟨rfl, ?_⟩
  simp [ServerJs.processStep]

/-- Counterexample to claim C8: in the README-embedded variant, `/api/start`
awaits `discoverModel` first, and when the upstream discovery is unreachable
with an empty cache the whole process exits — start does not succeed for any
language, English or Hindi. -/
theorem c8_counterexample :
    ReadmeVar.startStep ⟨none⟩ ReadmeVar.Discovery.err (some "en-IN") = ReadmeVar.RVOut.exit
  ∧ ReadmeVar.startStep ⟨none⟩ ReadmeVar.Discovery.err (some "hi-IN") = ReadmeVar.RVOut.exit :=
  ⟨rfl, rfl⟩

/-- Amended claim C8: src/server.js's `/api/start` never contacts the
upstream at all (its embedding takes no fetch outcome): for every language
it deterministically yields an ACTIVE session document whose opening
question is the fixed Hindi greeting for `hi-IN` and the fixed English
greeting otherwise.  The README-embedded variant, however, runs model
discovery inside `/api/start` and kills the process when discovery fails, so
there start does not survive an unreachable upstream. -/
theorem c8_start_fixed_greeting :
    (∀ lang : String,
      (ServerJs.startDoc lang).status = "ACTIVE"
      ∧ (ServerJs.startDoc lang).transcript =
          [{ sender := "AI", text := some (ServerJs.initialQ lang) }]
      ∧ (ServerJs.startMemSession lang).history.length = 2)
  ∧ ServerJs.initialQ "en-IN" = "Hello. Please state your name for verification?"
  ∧ (∀ lang : Option String,
      ReadmeVar.startStep ⟨none⟩ ReadmeVar.Discovery.err lang = ReadmeVar.RVOut.exit) :=
  ⟨fun _ => ⟨rfl, rfl, rfl⟩, rfl, fun _ => rfl⟩

/-- Counterexample to claim C6: in the README-embedded variant a 404 from
the generate endpoint does not invalidate the cached model identifier — the
call throws a generic error leaving the cache holding the stale id, and the
next `discoverModel` returns that stale id without performing discovery,
even though a fresh listing offering `models/gemini-1.5-flash` is
available. -/
theorem c6_counterexample :
    ReadmeVar.callGemini ⟨some "models/gemini-old"⟩
        (ReadmeVar.Discovery.ok [⟨"models/gemini-1.5-flash", ["generateContent"]⟩])
        (ReadmeVar.GenFetch.httpErr 404) =
      ReadmeVar.RVOut.value
        (Except.error "Gemini API Error: 404", ⟨some "models/gemini-old"⟩)
  ∧ ReadmeVar.discoverModel ⟨some "models/gemini-old"⟩
        (ReadmeVar.Discovery.ok [⟨"models/gemini-1.5-flash", ["generateContent"]⟩]) =
      ReadmeVar.RVOut.value ("models/gemini-old", ⟨some "models/gemini-old"⟩) :=
  ⟨rfl, rfl⟩

/-- Amended claim C6: only the part_000 variant self-heals, and it does so
eagerly rather than by invalidate-then-re-resolve: an HTTP 404 from the
generate endpoint immediately re-runs `negotiateBestModel` against the
current provider listing and replaces `APP_STATE.ACTIVE_MODEL` with a
selection from that listing, so a stale identifier absent from the fresh
listing is never kept; the README-embedded variant performs no invalidation
and keeps answering from its stale cache. -/
theorem c6_renegotiate_on_404 (key : String) (st : PartZero.AppState)
    (models : List PartZero.ModelInfo)
    (hne : PartZero.validModels models ≠ [])
    (hstale : st.activeModel ∉
      (PartZero.validModels models).map (fun m => PartZero.lastSegment m.name)) :
    (PartZero.generateResponse (some key) st (PartZero.GenFetch.httpErr 404)
        (PartZero.Discovery.ok models)).1 = Except.error "MODEL_NOT_FOUND_RETRYING"
  ∧ (PartZero.generateResponse (some key) st (PartZero.GenFetch.httpErr 404)
        (PartZero.Discovery.ok models)).2.activeModel ∈
      (PartZero.validModels models).map (fun m => PartZero.lastSegment m.name)
  ∧ (PartZero.generateResponse (some key) st (PartZero.GenFetch.httpErr 404)
        (PartZero.Discovery.ok models)).2.activeModel ≠ st.activeModel := by
  have hmem := negotiateBestModel_mem models hne
  refine ⟨rfl, hmem, ?_⟩
  intro he
  exact hstale (he ▸ hmem)

/-- Witness for the amended C6: a stale `gemini-old` cache is replaced after
a 404 by the flash model the fresh listing offers. -/
theorem c6_witness :
    (PartZero.generateResponse (some "key") ⟨"gemini-old"⟩ (PartZero.GenFetch.httpErr 404)
        (PartZero.Discovery.ok [⟨"models/gemini-1.5-flash", ["generateContent"]⟩])).1 =
      Except.error "MODEL_NOT_FOUND_RETRYING"
  ∧ (PartZero.generateResponse (some "key") ⟨"gemini-old"⟩ (PartZero.GenFetch.httpErr 404)
        (PartZero.Discovery.ok [⟨"models/gemini-1.5-flash", ["generateContent"]⟩])).2.activeModel ∈
      (PartZero.validModels [⟨"models/gemini-1.5-flash", ["generateContent"]⟩]).map
        (fun m => PartZero.lastSegment m.name)
  ∧ (PartZero.generateResponse (some "key") ⟨"gemini-old"⟩ (PartZero.GenFetch.httpErr 404)
        (PartZero.Discovery.ok [⟨"models/gemini-1.5-flash", ["generateContent"]⟩])).2.activeModel ≠
      "gemini-old" :=
  c6_renegotiate_on_404 "key" ⟨"gemini-old"⟩
    [⟨"models/gemini-1.5-flash", ["generateContent"]⟩] (by decide) (by decide)
